import Mathlib

/-!
Verification development for the mlcommons power-dev PTD client/server.

The definitions below are a shallow embedding of the Python sources:
  * src/ptd_client_server/lib/server.py  (log parsing, log merging, session
    state machine, server command dispatch)
  * src/ptd_client_server/lib/common.py  (framed file transfer, label check)
  * src/compliance/check.py              (audit PTD-configuration check)

Modelling conventions:
  * Python Decimal values are modelled as exact rationals (Rat).  Parsing of
    a decimal literal, comparison and max on Decimal are exact, so this is
    faithful; the single Decimal division (mean watts) is modelled as exact
    rational division, eliding the 28-significant-digit context rounding.
  * Byte strings are modelled as List Nat (one Nat per byte).
  * Fallible code returns Except / Option; an uncaught Python exception is an
    error value.
-/

namespace PowerDev

/-- One trailing channel tuple of a PTD sample row:
the words "Ch<k>,Watts,<w>,Volts,<v>,Amps,<a>,PF,<p>" of server.py's log
format.  The label "Ch<k>" is modelled by the channel number k (the code
compares the word against the f-string "Ch{n}", and the rows are produced by
the code itself with canonical numerals). -/
structure ChTuple where
  ch : Nat
  watts : Rat
  volts : Rat
  amps : Rat
  pf : Rat
deriving Repr, DecidableEq

/-- One PTD sample row, i.e. a log line matching RE_PTD_LOG of server.py:
"Time,<t>,Watts,<w>,Volts,<v>,Amps,<a>,PF,<p>,Mark,<m>" followed by zero or
more channel tuples.  Numeric fields are the Decimal values of the words. -/
structure LogRow where
  time : String
  watts : Rat
  volts : Rat
  amps : Rat
  pf : Rat
  mark : String
  channels : List ChTuple
deriving Repr, DecidableEq

/-- Exceptions that max_volts_amps_avg_watts (server.py lines 205-269) can
raise on a well-formed (regex-matching) log.  ExtraChannelError is raised at
line 262 when expected channels remain after a row is exhausted; indexError
models the Python IndexError from evaluating channel_range[0] on an empty
channel_range (amount_of_channels = 0 while the row still has tuples).
There is no constructor for MaxVoltsAmpsNegativeValuesError: the function
body contains no raise of that exception. -/
inductive PtdParseError
  | extraChannel
  | indexError
deriving Repr, DecidableEq

/-- Channel loop of max_volts_amps_avg_watts (server.py lines 236-264):
walk the row's channel tuples; a tuple whose label equals "Ch<head>" for the
head of the remaining expected-channel list is included (its volts/amps feed
the maxima, its watts is collected when positive) and the head is popped; any
other tuple is consumed without contributing.  When the expected list empties
the loop breaks (remaining tuples are ignored); if tuples run out first the
function raises ExtraChannelError. -/
def chanLoop : List Nat → List ChTuple → Rat → Rat → List Rat →
    Except PtdParseError (Rat × Rat × List Rat)
  | expected, [], mV, mA, ws =>
      if expected = [] then .ok (mV, mA, ws) else .error .extraChannel
  | [], _ :: _, _, _, _ => .error .indexError
  | e :: es, t :: ts, mV, mA, ws =>
      if t.ch = e then
        let mV2 := max mV t.volts
        let mA2 := max mA t.amps
        let ws2 := if 0 < t.watts then ws ++ [t.watts] else ws
        if es = [] then .ok (mV2, mA2, ws2)
        else chanLoop es ts mV2 mA2 ws2
      else
        chanLoop (e :: es) ts mV mA ws

/-- Per-row step of max_volts_amps_avg_watts (server.py lines 213-264): rows
whose mark differs are skipped; on a matching row the primary watts is
collected (when positive) only in the single-channel case
(amount_of_channels = 0), the primary volts/amps always feed the maxima
(lines 234-235), and then the channel loop runs with expected channels
range(start_channel, start_channel + amount_of_channels). -/
def processRow (mark : String) (start_channel amount_of_channels : Nat)
    (st : Rat × Rat × List Rat) (row : LogRow) :
    Except PtdParseError (Rat × Rat × List Rat) :=
  if row.mark = mark then
    let (mV, mA, ws) := st
    let ws2 := if amount_of_channels = 0 then
                 (if 0 < row.watts then ws ++ [row.watts] else ws)
               else ws
    let mV2 := max mV row.volts
    let mA2 := max mA row.amps
    let expected := (List.range amount_of_channels).map (· + start_channel)
    chanLoop expected row.channels mV2 mA2 ws2
  else .ok st

/-- Fold of processRow over the whole log file, in line order. -/
def processLog (mark : String) (start_channel amount_of_channels : Nat) :
    List LogRow → Rat × Rat × List Rat → Except PtdParseError (Rat × Rat × List Rat)
  | [], st => .ok st
  | row :: rows, st => do
      let st2 ← processRow mark start_channel amount_of_channels st row
      processLog mark start_channel amount_of_channels rows st2

/-- Embedding of max_volts_amps_avg_watts (server.py lines 205-269).  The log
file is the list of its regex-matching rows (non-matching lines are skipped
by the regex guard at line 214 and never reach the parser).  Accumulators
start at Decimal -1; the mean is sum/len of the collected positive watts, or
-1 when none were collected.  The final str()/"%.6f" renderings are elided:
the numeric values are returned. -/
def max_volts_amps_avg_watts (log : List LogRow) (mark : String)
    (start_channel amount_of_channels : Nat) :
    Except PtdParseError (Rat × Rat × Rat) := do
  let (maxVolts, maxAmps, watts) ←
    processLog mark start_channel amount_of_channels log (-1, -1, [])
  let avgWatts : Rat :=
    if 1 ≤ watts.length then watts.sum / (watts.length : Rat) else -1
  return (maxVolts, maxAmps, avgWatts)

/-- One line of a per-analyzer sample log as consumed by merge_power_logs
(server.py lines 104-161): a CSV row
"Time,<t>,Watts,<w>,Volts,<v>,Amps,<a>,PF,<p>,Mark,<m>".  The code indexes
the split word list at 1 (time), 3 (watts), 11 (mark); the structure holds
the value words, with watts as the float value the code parses. -/
structure PRow where
  time : String
  watts : Rat
  volts : Rat
  amps : Rat
  pf : Rat
  mark : String
deriving Repr, DecidableEq

/-- Watts aggregation of merge_power_logs (server.py lines 139-146): add the
absolute value of every analyzer's row watts whose value is not -1. -/
def combinedWatts (rows : List PRow) : Rat :=
  rows.foldl (fun acc r => if r.watts ≠ -1 then acc + |r.watts| else acc) 0

/-- One output line of merge_power_logs: the aggregate fields followed by
every analyzer's original row (the code appends ",Analyzer<n>,<row>" for each
analyzer). -/
structure MergedRow where
  time : String
  watts : Rat
  volts : Rat
  amps : Rat
  pf : Rat
  mark : String
  originals : List PRow
deriving Repr, DecidableEq

/-- Aggregate row built by merge_power_logs for one line index: time and mark
are borrowed from analyzer 1 (lines 136-137), watts is the abs-sum over
analyzers reporting a value different from -1 (lines 139-151), and
volts/amps/pf are set to -1. -/
def mkMergedRow (rows : List PRow) : MergedRow :=
  let a1 := rows.headD ⟨"", 0, 0, 0, 0, ""⟩
  { time := a1.time, watts := combinedWatts rows, volts := -1, amps := -1,
    pf := -1, mark := a1.mark, originals := rows }

/-- Embedding of merge_power_logs (server.py lines 104-161).  Inputs are the
per-analyzer row lists; the output has one merged row per line index below
the minimum log length (the try/except that skips ragged extra lines never
fires for indices below the minimum).  The "%.6f" renderings of the numeric
fields are elided. -/
def merge_power_logs : List (List PRow) → List MergedRow
  | [] => []
  | first :: rest =>
      let n := (rest.map List.length).foldl min first.length
      (List.range n).map fun i =>
        mkMergedRow ((first :: rest).filterMap (fun l => l.get? i))

/-- Decimal ASCII rendering of a byte count, as produced by Python's
str(len(chunk)) in Proto.send_file (common.py line 116): most-significant
digit first, "0" for zero. -/
def digitsOf (n : Nat) : List Nat :=
  if n = 0 then [48] else (Nat.digits 10 n).reverse.map (· + 48)

/-- Embedding of Python's int(line, 10) as applied by Proto.recv_file
(common.py line 93) to a received length line, restricted to the canonical
digit strings the sender emits: a non-empty all-digit line parses to its
value, anything else raises ValueError (modelled as none).  The sign and
whitespace forms int() would additionally accept are never produced by
send_file and are elided. -/
def parseDecimal (l : List Nat) : Option Nat :=
  if l = [] then none
  else if l.all (fun c => 48 ≤ c ∧ c ≤ 57) then
    some (Nat.ofDigits 10 ((l.map (· - 48)).reverse))
  else none

/-- Split a byte stream at the first CRLF (13, 10), returning the line before
it and the remainder, as Proto.recv does with its buffer (common.py lines
53-66); none when the stream holds no CRLF (peer closed: recv returns None). -/
def splitAtCRLF : List Nat → Option (List Nat × List Nat)
  | [] => none
  | [_] => none
  | a :: b :: rest =>
      if a = 13 ∧ b = 10 then some ([], rest)
      else match splitAtCRLF (b :: rest) with
           | none => none
           | some (l, r) => some (a :: l, r)

/-- Length bound used for the termination of recvFileLoop. -/
def splitAtCRLF_rest_lt : ∀ (s l r : List Nat),
    splitAtCRLF s = some (l, r) → r.length < s.length
  | [], _, _, h => by simp [splitAtCRLF] at h
  | [_], _, _, h => by simp [splitAtCRLF] at h
  | a :: b :: rest, l, r, h => by
      unfold splitAtCRLF at h
      split at h
      · simp only [Option.some.injEq, Prod.mk.injEq] at h
        obtain ⟨-, h2⟩ := h
        subst h2
        simp only [List.length_cons]
        omega
      · revert h
        split
        · intro h; exact absurd h (by simp)
        · next l2 r2 heq =>
            intro h
            simp only [Option.some.injEq, Prod.mk.injEq] at h
            have ih := splitAtCRLF_rest_lt (b :: rest) l2 r2 heq
            obtain ⟨-, h2⟩ := h
            subst h2
            simp only [List.length_cons] at ih ⊢
            omega

/-- Split a byte buffer into successive chunks of at most k bytes, as
Proto.send_file obtains them from f.read(1024*1024) (common.py line 115);
the empty buffer yields no chunks. -/
def chunksOf (k : Nat) (l : List Nat) : List (List Nat) :=
  if h : k = 0 ∨ l = [] then [] else l.take k :: chunksOf k (l.drop k)
termination_by l.length
decreasing_by
  push_neg at h
  have h1 : 0 < k := Nat.pos_of_ne_zero h.1
  have h2 : 0 < l.length := List.length_pos.mpr h.2
  simp only [List.length_drop]
  omega

/-- Embedding of Proto.send_file (common.py lines 112-122): the byte stream
written for a file of contents B: for each chunk read from the file, its
decimal length, CRLF, then the raw chunk bytes; finally the zero-length
frame "0" CRLF. -/
def send_file (B : List Nat) : List Nat :=
  ((chunksOf 1048576 B).map
      (fun c => digitsOf c.length ++ [13, 10] ++ c)).flatten
    ++ digitsOf 0 ++ [13, 10]

/-- Loop of Proto.recv_file (common.py lines 83-110) over a byte stream:
read a CRLF-terminated line, parse it as a decimal chunk length, stop on a
zero length, otherwise take exactly that many raw bytes and continue; none on
a missing line, an unparsable length, or a short stream (peer disconnect).
A negative length cannot arise here because int() of a digit string is
non-negative (the source's chunk_len < 0 guard is unreachable on canonical
input). -/
def recvFileLoop (stream : List Nat) (acc : List Nat) : Option (List Nat) :=
  match hsplit : splitAtCRLF stream with
  | none => none
  | some (line, rest) =>
      match parseDecimal line with
      | none => none
      | some 0 => some acc
      | some (n + 1) =>
          if n + 1 ≤ rest.length then
            recvFileLoop (rest.drop (n + 1)) (acc ++ rest.take (n + 1))
          else none
termination_by stream.length
decreasing_by
  have := splitAtCRLF_rest_lt stream line rest hsplit
  simp [List.length_drop]
  omega

/-- Embedding of Proto.recv_file applied to a whole byte stream: the decoded
file contents, or none when the transfer fails. -/
def recv_file (stream : List Nat) : Option (List Nat) :=
  recvFileLoop stream []

/-- Embedding of common.check_label (common.py lines 270-272): every
character must be a dash, an underscore, an ASCII letter or a digit. -/
def check_label (label : String) : Bool :=
  label.toList.all (fun c => c == '-' || c == '_' || c.isAlpha || c.isDigit)

/-- The MAX_RANGE_FOR_DEVICE table of server.py lines 72-84: maximal amps
range per device-type code; none for device types absent from the table. -/
def MAX_RANGE_FOR_DEVICE : Nat → Option Nat
  | 8 => some 20
  | 49 => some 20
  | 52 => some 20
  | 77 => some 20
  | 35 => some 40
  | 48 => some 40
  | 47 => some 50
  | 66 => some 30
  | 508 => some 20
  | 549 => some 20
  | 586 => some 20
  | _ => none

/-- DEVICE_TYPE_WT500 of server.py line 68. -/
def DEVICE_TYPE_WT500 : Nat := 48

/-- SessionState of server.py lines 924-930. -/
inductive SessionState
  | INITIAL | RANGING | RANGING_DONE | TESTING | TESTING_DONE | DONE
deriving Repr, DecidableEq

/-- Mode of server.py lines 933-935. -/
inductive Mode
  | RANGING | TESTING
deriving Repr, DecidableEq

/-- The per-analyzer parts of ServerConfig that the session logic reads:
ptd_device_type, ptd_channel (one entry per analyzer; the lists have length
analyzer_count) and the [server] rangingMode option. -/
structure SessCfg where
  deviceTypes : List Nat
  channels : List (Option (List Nat))
  rangingMode : String
deriving Repr, DecidableEq

/-- analyzer_count, witnessed by the length of the per-analyzer lists. -/
def SessCfg.count (cfg : SessCfg) : Nat := cfg.deviceTypes.length

/-- Session state owned by a Session object (server.py lines 975-1000):
the session id, the state enum, the per-analyzer range variables (stored as
strings in the source; numeric renderings are modelled by toString), and
whether each analyzer's PTD supervisor process is running (set by
Ptd.start, cleared by Ptd.terminate). -/
structure Sess where
  id : String
  state : SessionState
  maxAmps : List String
  maxVolts : List String
  avgWatts : List String
  desirableCurrentRange : List String
  ptdRunning : List Bool
deriving Repr, DecidableEq

/-- Session id generation (server.py line 980): timestamp plus label when the
label is non-empty. -/
def newSessionId (timestamp label : String) : String :=
  if label ≠ "" then timestamp ++ "_" ++ label else timestamp

/-- Fresh session as built by Session.__init__ (server.py lines 975-1000):
INITIAL state, range variables all "0", supervisors not yet started. -/
def newSession (cfg : SessCfg) (timestamp label : String) : Sess :=
  { id := newSessionId timestamp label
    state := .INITIAL
    maxAmps := List.replicate cfg.count ("0")
    maxVolts := List.replicate cfg.count ("0")
    avgWatts := List.replicate cfg.count ("0")
    desirableCurrentRange := List.replicate cfg.count ("0")
    ptdRunning := List.replicate cfg.count false }

/-- Session.drop (server.py lines 1299-1302): terminate every PTD supervisor
and set the state to DONE. -/
def Sess.drop (s : Sess) : Sess :=
  { s with state := .DONE, ptdRunning := s.ptdRunning.map (fun _ => false) }

/-- Result of Session.start (server.py line 1002, Union[bool, str]): True,
False, or an error-message string (only the TESTING branch produces one). -/
inductive StartResult
  | ok | err | errMsg (msg : String)
deriving Repr, DecidableEq

/-- PTD command trace of the INITIAL to RANGING transition of Session.start
(server.py lines 1010-1054), as pairs (analyzer index, command string):
SR,V,Auto to every analyzer; then the rangingMode-dependent SR,A commands
(Auto for mode AUTO, the MAX_RANGE_FOR_DEVICE value or Auto for mode MAX,
nothing for an unknown mode); then the unconditional SR,A,Auto loop of lines
1032-1033 to every analyzer; then the parallel Go commands.  The supervisor
startup exchanges (Hello, Identify, RR) sent by Ptd.start are elided: they
are not SR or Go commands. -/
def rangingStartTrace (cfg : SessCfg) (sid : String) : List (Nat × String) :=
  let idx := List.range cfg.count
  idx.map (fun i => (i, "SR,V,Auto"))
  ++ (if cfg.rangingMode = "AUTO" then idx.map (fun i => (i, "SR,A,Auto"))
      else if cfg.rangingMode = "MAX" then
        idx.map (fun i => (i,
          match MAX_RANGE_FOR_DEVICE (cfg.deviceTypes.getD i 0) with
          | some r => "SR,A," ++ toString r
          | none => "SR,A,Auto"))
      else [])
  ++ idx.map (fun i => (i, "SR,A,Auto"))
  ++ idx.map (fun i => (i, "Go,1000,0," ++ sid ++ "_ranging"))

/-- Per-analyzer loop of the TESTING branch of Session.start (server.py
lines 1065-1082): send SR,V and SR,A with the stored ranges; a reply
containing "Error" (modelled by the reply oracle re) aborts with the error
message (the interpolated range list is elided from the message).  Returns
the error, if any, and the accumulated command trace. -/
def startTestingLoop (re : Nat → String → Bool) (maxV desR : List String) :
    List Nat → List (Nat × String) → Option String × List (Nat × String)
  | [], tr => (none, tr)
  | i :: rest, tr =>
      let c1 := "SR,V," ++ maxV.getD i ("")
      if re i c1 then (some ("Error setting voltage range"), tr ++ [(i, c1)])
      else
        let c2 := "SR,A," ++ desR.getD i ("")
        if re i c2 then
          (some ("Error setting current range"), tr ++ [(i, c1), (i, c2)])
        else startTestingLoop re maxV desR rest (tr ++ [(i, c1), (i, c2)])

/-- Embedding of Session.start (server.py lines 1002-1109).  Returns the
updated session, the result, and the trace of PTD commands sent, given the
reply oracle re (whether a given command's reply contains "Error").  The
sleeps, summary checkpoints and thread fan-out are elided; the Go commands
appear once per analyzer. -/
def sessionStart (cfg : SessCfg) (re : Nat → String → Bool) (s : Sess)
    (mode : Mode) : Sess × StartResult × List (Nat × String) :=
  if mode = .RANGING ∧ s.state = .RANGING then (s, .ok, [])
  else if mode = .TESTING ∧ s.state = .TESTING then (s, .ok, [])
  else if mode = .RANGING ∧ s.state = .INITIAL then
    ({ s with state := .RANGING, ptdRunning := List.replicate cfg.count true },
     .ok, rangingStartTrace cfg s.id)
  else if mode = .TESTING ∧
      ((s.state = .INITIAL ∧ s.maxVolts ≠ [] ∧ s.desirableCurrentRange ≠ []) ∨
       s.state = .RANGING_DONE) then
    match startTestingLoop re s.maxVolts s.desirableCurrentRange
        (List.range cfg.count) [] with
    | (some msg, tr) =>
        (Sess.drop { s with ptdRunning := List.replicate cfg.count true },
         .errMsg msg, tr)
    | (none, tr) =>
        ({ s with state := .TESTING, ptdRunning := List.replicate cfg.count true },
         .ok,
         tr ++ (List.range cfg.count).map
           (fun i => (i, "Go,1000,0," ++ s.id ++ "_testing")))
  else (s, .err, [])

/-- Whether a parse error is Python's MaxVoltsAmpsNegativeValuesError, the
only exception caught by the except clause at server.py lines 1206-1212.
The class is defined at line 91 but no statement in server.py raises it (in
particular max_volts_amps_avg_watts does not), so no error is of that kind. -/
def isMaxVoltsAmpsNegativeValues (_e : PtdParseError) : Bool := false

/-- Exceptions escaping Session.stop. -/
inductive StopExc
  | measurementTooFast
  | parseError (e : PtdParseError)
deriving Repr, DecidableEq

/-- Outcome of Session.stop: the returned bool, or an escaped exception. -/
inductive StopResult
  | ok (b : Bool)
  | exc (e : StopExc)
deriving Repr, DecidableEq

/-- Channel-window selection of Session.stop (server.py lines 1165-1176):
with no configured channel list both parameters stay 0; for the WT500
(device type 48) start at channel 1 with the first entry as the count;
otherwise start at the first entry, the count being the second entry when
the list has exactly two entries. -/
def stopChannelParams (deviceType : Nat) (chan : Option (List Nat)) :
    Nat × Nat :=
  match chan with
  | none => (0, 0)
  | some ch =>
      if deviceType = DEVICE_TYPE_WT500 then (1, ch.headD 0)
      else (ch.headD 0, if ch.length = 2 then ch.getD 1 0 else 0)

/-- Per-analyzer body of the RANGING branch of Session.stop (server.py lines
1133-1212): parse the analyzer's PTD log for the ranging mark and store
maxVolts, maxAmps, avgWatts and desirableCurrentRange = maxAmps * 1.1 (the
float arithmetic and string renderings are modelled by exact rationals and
toString).  A parse error is re-raised unless it is
MaxVoltsAmpsNegativeValuesError, in which case a test duration under one
second promotes it to MeasurementEndedTooFastError. -/
def stopRangingOne (cfg : SessCfg) (logs : List (List LogRow)) (durLt1 : Bool)
    (i : Nat) (s : Sess) : Except StopExc Sess :=
  let sc := stopChannelParams (cfg.deviceTypes.getD i 0) (cfg.channels.getD i none)
  match max_volts_amps_avg_watts (logs.getD i []) (s.id ++ "_ranging") sc.1 sc.2 with
  | .ok (mV, mA, aW) =>
      .ok { s with
        maxVolts := s.maxVolts.set i (toString mV)
        maxAmps := s.maxAmps.set i (toString mA)
        avgWatts := s.avgWatts.set i (toString aW)
        desirableCurrentRange :=
          s.desirableCurrentRange.set i (toString (mA * (11 / 10 : Rat))) }
  | .error e =>
      if isMaxVoltsAmpsNegativeValues e then
        if durLt1 then .error .measurementTooFast else .error (.parseError e)
      else .error (.parseError e)

/-- Analyzer loop of the RANGING branch of Session.stop; an exception aborts
the loop and escapes (the session keeps the mutations made so far). -/
def stopRangingLoop (cfg : SessCfg) (logs : List (List LogRow))
    (durLt1 : Bool) : List Nat → Sess → Sess × StopResult
  | [], s => (s, .ok true)
  | i :: rest, s =>
      match stopRangingOne cfg logs durLt1 i s with
      | .ok s2 => stopRangingLoop cfg logs durLt1 rest s2
      | .error e => (s, .exc e)

/-- Embedding of Session.stop (server.py lines 1111-1297): the early
idempotent returns for the *_DONE states; the RANGING branch sets the state
to RANGING_DONE first (line 1130) and then parses every analyzer's log; the
TESTING branch sets the state to TESTING_DONE; any other combination falls
through to False.  PTD readout commands, file writes and log merging are
elided; logs holds each analyzer's parsed PTD log file and durLt1 tells
whether the wall time between Go and Stop was under one second. -/
def sessionStop (cfg : SessCfg) (logs : List (List LogRow)) (durLt1 : Bool)
    (s : Sess) (mode : Mode) : Sess × StopResult :=
  if mode = .RANGING ∧ s.state = .RANGING_DONE then (s, .ok true)
  else if mode = .TESTING ∧ s.state = .TESTING_DONE then (s, .ok true)
  else if mode = .RANGING ∧ s.state = .RANGING then
    stopRangingLoop cfg logs durLt1 (List.range cfg.count)
      { s with state := .RANGING_DONE }
  else if mode = .TESTING ∧ s.state = .TESTING then
    ({ s with state := .TESTING_DONE }, .ok true)
  else (s, .ok false)

/-- The unbool table of Server._handle_cmd (server.py line 846). -/
def unbool (b : Bool) : String := if b then "OK" else "Error"

/-- Reply produced for a MeasurementEndedTooFastError by handle_connection
(server.py lines 784-786): "Error: " followed by the exception message of
line 1209 (the interpolated session id is elided). -/
def tooFastReply : String :=
  "Error: the ranging measurement ended too fast (less than 1 second), " ++
  "no PTDaemon logs generated"

/-- Reply for a start command of arity two (server.py lines 848-851): the
unbool of the result; a string result would make int() raise, which the
catch-all of handle_connection turns into "Error: exception". -/
def startReply : StartResult → String
  | .ok => "OK"
  | .err => "Error"
  | .errMsg _ => "Error: exception"

/-- Reply for the four-argument start,testing command (server.py line 864):
unbool for a bool result, the error string itself otherwise. -/
def startReply4 : StartResult → String
  | .ok => "OK"
  | .err => "Error"
  | .errMsg m => m

/-- Reply for a stop command (server.py lines 866-869) combined with the
exception handling of handle_connection (lines 780-789): unbool of the
returned bool; "Error: " plus the message for MeasurementEndedTooFastError;
"Error: exception" for any other exception. -/
def stopReply : StopResult → String
  | .ok b => unbool b
  | .exc .measurementTooFast => tooFastReply
  | .exc (.parseError _) => "Error: exception"

/-- Embedding of the "new,<label>,<uuid>" branch of Server._handle_cmd
(server.py lines 828-840): an active session is dropped first (line 830);
only then is the label validated; on an invalid label the reply is
"Error: invalid label" and self.session still references the dropped
session; otherwise a fresh session is created and "OK <id>,<uuid>" is
returned. -/
def handleNew (cfg : SessCfg) (session : Option Sess)
    (label timestamp serverUuid : String) : Option Sess × String :=
  let session1 := session.map Sess.drop
  if ¬ check_label label then (session1, "Error: invalid label")
  else
    let s := newSession cfg timestamp label
    (some s, "OK " ++ s.id ++ "," ++ serverUuid)

/-- Dispatch of a session command once the session id has been accepted
(server.py lines 846-875): the start/stop/done commands; unknown words give
"Error Unknown session command" (line 875). -/
def sessionDispatch (cfg : SessCfg) (re : Nat → String → Bool)
    (logs : List (List LogRow)) (durLt1 : Bool)
    (s : Sess) (rest : List String) : Option Sess × String :=
  match rest with
  | ["start", "ranging"] =>
      let r := sessionStart cfg re s .RANGING
      (some r.1, startReply r.2.1)
  | ["start", "testing"] =>
      let r := sessionStart cfg re s .TESTING
      (some r.1, startReply r.2.1)
  | ["start", "testing", v, a] =>
      let s1 := { s with
        maxVolts := (List.range cfg.count).foldl (fun l i => l.set i v)
          s.maxVolts
        desirableCurrentRange :=
          (List.range cfg.count).foldl (fun l i => l.set i a)
            s.desirableCurrentRange }
      let r := sessionStart cfg re s1 .TESTING
      (some r.1, startReply4 r.2.1)
  | ["stop", "ranging"] =>
      let r := sessionStop cfg logs durLt1 s .RANGING
      (some r.1, stopReply r.2)
  | ["stop", "testing"] =>
      let r := sessionStop cfg logs durLt1 s .TESTING
      (some r.1, stopReply r.2)
  | ["done"] => (none, "OK")
  | _ => (some s, "Error Unknown session command")

/-- Embedding of the "session,<sid>,<rest>" branch of Server._handle_cmd
(server.py lines 841-875): reply "Error: unknown session" when no session is
active or the id matches neither the active session nor the wildcard "*";
otherwise dispatch on the remaining words.  The download/cleanup commands are
separate top-level commands, not part of this branch. -/
def handleSessionCmd (cfg : SessCfg) (re : Nat → String → Bool)
    (logs : List (List LogRow)) (durLt1 : Bool)
    (session : Option Sess) (sid : String) (rest : List String) :
    Option Sess × String :=
  match session with
  | none => (none, "Error: unknown session")
  | some s =>
      if s.id ≠ sid ∧ sid ≠ "*" then (some s, "Error: unknown session")
      else sessionDispatch cfg re logs durLt1 s rest

/-- The SUPPORTED_MODEL table keys of compliance/check.py lines 39-44 (the
model names are irrelevant to the check). -/
def SUPPORTED_MODEL_keys : List Nat := [8, 49, 52, 77]

/-- The ptd_config object of a server session descriptor as read by
check_ptd_config (compliance/check.py lines 520-545): the device_type code,
the PTDaemon command-line vector, and the channel entry (null or a list of
channel numbers). -/
structure PtdConfigDesc where
  device_type : Nat
  command : List String
  channel : Option (List Nat)
deriving Repr, DecidableEq

/-- Scan of the command vector for the "-c" flag (check.py lines 536-539):
the word after the first "-c", an IndexError (none) when "-c" is last, and
the initial empty string when "-c" never occurs. -/
def findDashC : List String → Option String
  | [] => some ("")
  | c :: rest => if c = "-c" then rest.head? else findDashC rest

/-- Embedding of check_ptd_config (compliance/check.py lines 520-545): the
check passes iff the device type is a SUPPORTED_MODEL key and, when the
device type is 77, the word after "-c" in the command splits on commas into
exactly two parts, and the channel entry is a truthy list of exactly two
entries.  A failed assert or an IndexError makes the check fail (false). -/
def check_ptd_config (d : PtdConfigDesc) : Bool :=
  if d.device_type ∈ SUPPORTED_MODEL_keys then
    if d.device_type = 77 then
      match findDashC d.command with
      | none => false
      | some channels =>
          decide ((channels.splitOn (",")).length = 2) &&
          (match d.channel with
           | none => false
           | some ch => !ch.isEmpty && decide (ch.length = 2))
    else true
  else false

/-- The expected-channel list range(start_channel, start_channel +
amount_of_channels) of server.py lines 236-238. -/
def expectedChannels (start_channel amount_of_channels : Nat) : List Nat :=
  (List.range amount_of_channels).map (· + start_channel)

/-- Gather form of the channel loop's inclusion rule: the tuples that match,
in order, the successive expected channels; a tuple not matching the next
expected channel is skipped, and tuples after the last expected channel is
matched are ignored. -/
def includedTuples : List Nat → List ChTuple → List ChTuple
  | _, [] => []
  | [], _ :: _ => []
  | e :: es, t :: ts =>
      if t.ch = e then t :: (if es = [] then [] else includedTuples es ts)
      else includedTuples (e :: es) ts

/-- Rows of a log whose mark equals the requested mark. -/
def matchingRows (log : List LogRow) (mark : String) : List LogRow :=
  log.filter (fun r => r.mark = mark)

/-- Volts values contributing to maxVolts for one matching row: the primary
volts and the volts of the included channel tuples. -/
def rowVoltsContrib (sc n : Nat) (row : LogRow) : List Rat :=
  row.volts :: (includedTuples (expectedChannels sc n) row.channels).map ChTuple.volts

/-- Amps values contributing to maxAmps for one matching row. -/
def rowAmpsContrib (sc n : Nat) (row : LogRow) : List Rat :=
  row.amps :: (includedTuples (expectedChannels sc n) row.channels).map ChTuple.amps

/-- Watts values considered for the mean for one matching row: the primary
watts in the single-channel case, and the watts of the included channel
tuples (before the positivity filter). -/
def rowWattsContrib (sc n : Nat) (row : LogRow) : List Rat :=
  (if n = 0 then [row.watts] else []) ++
    (includedTuples (expectedChannels sc n) row.channels).map ChTuple.watts

/-- All volts values contributing to maxVolts across matching rows. -/
def contributingVolts (log : List LogRow) (mark : String) (sc n : Nat) :
    List Rat :=
  (matchingRows log mark).flatMap (rowVoltsContrib sc n)

/-- All amps values contributing to maxAmps across matching rows. -/
def contributingAmps (log : List LogRow) (mark : String) (sc n : Nat) :
    List Rat :=
  (matchingRows log mark).flatMap (rowAmpsContrib sc n)

/-- All watts values considered for the mean across matching rows. -/
def contributingWatts (log : List LogRow) (mark : String) (sc n : Nat) :
    List Rat :=
  (matchingRows log mark).flatMap (rowWattsContrib sc n)

/-- Maximum of a value list starting from the Decimal("-1") accumulator. -/
def listMax (l : List Rat) : Rat := l.foldl max (-1)

/-- Channel-tuple selection as the claim words it: a tuple is selected iff
its channel number lies in the half-open range
[startChan, startChan + nChans), regardless of order or multiplicity.
Modelled from the claim, for comparison with the code's in-order matching. -/
def selectedTuples (sc n : Nat) (row : LogRow) : List ChTuple :=
  row.channels.filter (fun t => decide (sc ≤ t.ch) && decide (t.ch < sc + n))

/-- The maxVolts value the claim describes: the maximum over matching rows of
the volts of the range-selected channel tuples only (no primary triple).
Modelled from the claim. -/
def claimedMaxVolts (log : List LogRow) (mark : String) (sc n : Nat) : Rat :=
  listMax ((matchingRows log mark).flatMap
    (fun row => (selectedTuples sc n row).map ChTuple.volts))

/-- The maxAmps value the claim describes.  Modelled from the claim. -/
def claimedMaxAmps (log : List LogRow) (mark : String) (sc n : Nat) : Rat :=
  listMax ((matchingRows log mark).flatMap
    (fun row => (selectedTuples sc n row).map ChTuple.amps))

/-- A one-row log exhibiting the difference between the code's maxima and the
claimed maxima: the primary volts/amps (100, 90) exceed the selected channel
tuple's (6, 4). -/
def c3Log : List LogRow :=
  [{ time := "t", watts := 7, volts := 100, amps := 90, pf := 1, mark := "m",
     channels := [⟨1, 5, 6, 4, 1⟩] }]

/-- The merged-watts value the claim describes: the plain sum (no absolute
value) of the per-analyzer watts values different from -1.  Modelled from the
claim. -/
def claimedCombinedWatts (rows : List PRow) : Rat :=
  rows.foldl (fun acc r => if r.watts ≠ -1 then acc + r.watts else acc) 0

/-- Sample rows for the merge counterexample: analyzer 1 reports 10 W,
analyzer 2 reports -5 W (a valid reading, not the -1 sentinel). -/
def c4RowA : PRow := ⟨"t1", 10, 1, 1, 1, "m"⟩

/-- Second analyzer row of the merge counterexample. -/
def c4RowB : PRow := ⟨"t2", -5, 2, 2, 2, "m"⟩

/-- Analyzer 1 log of the claim's merge example, watts {10, 20, 30}. -/
def c4ExA : List PRow :=
  [⟨"ta", 10, 4, 5, 6, "m"⟩, ⟨"tb", 20, 4, 5, 6, "m"⟩, ⟨"tc", 30, 4, 5, 6, "m"⟩]

/-- Analyzer 2 log of the claim's merge example, watts {1, 2, 3}. -/
def c4ExB : List PRow :=
  [⟨"tx", 1, 7, 8, 9, "q"⟩, ⟨"ty", 2, 7, 8, 9, "q"⟩, ⟨"tz", 3, 7, 8, 9, "q"⟩]

/-- The three-row two-analyzer logs of the claim's example. -/
def c4ExLogs : List (List PRow) := [c4ExA, c4ExB]

/-- Prefix test on strings by their character lists (String.startsWith is
byte-position based and does not reduce well in proofs). -/
def strStarts (s pre : String) : Bool := pre.data.isPrefixOf s.data

/-- The last SR,A,* command sent to analyzer i before the first Go command in
a command trace: the amps-range setting in effect when Go is issued. -/
def lastAmpsRangeBeforeGo (trace : List (Nat × String)) (i : Nat) :
    Option String :=
  (((trace.takeWhile (fun p => !(strStarts p.2 ("Go,")))).filter
      (fun p => p.1 == i && strStarts p.2 ("SR,A,"))).getLast?).map Prod.snd

/-- MULTICHANNEL_DEVICES of server.py line 66, as cited by the claim. -/
def MULTICHANNEL_DEVICES : List Nat := [48, 59, 61, 77]

/-- The PTD-configuration check as the claim words it: device type among the
eleven supported codes; multi-channel device types carry a channel list of
exactly two entries, except the WT500 (48) which carries exactly one.
Modelled from the claim. -/
def claimed_check_ptd_config (d : PtdConfigDesc) : Bool :=
  decide (d.device_type ∈ [8, 49, 52, 77, 35, 48, 47, 66, 508, 549, 586]) &&
  (!decide (d.device_type ∈ MULTICHANNEL_DEVICES) ||
    d.device_type == DEVICE_TYPE_WT500 ||
    (match d.channel with
     | some ch => decide (ch.length = 2)
     | none => false)) &&
  (!(d.device_type == DEVICE_TYPE_WT500) ||
    (match d.channel with
     | some ch => decide (ch.length = 1)
     | none => false))

/-- A MAX-rangingMode configuration with one analyzer of device type 8
(Yokogawa WT210), for which MAX_RANGE_FOR_DEVICE gives 20. -/
def c2Cfg : SessCfg :=
  { deviceTypes := [8], channels := [none], rangingMode := "MAX" }

/-- A session in RANGING state with one analyzer, as left by start,ranging. -/
def c1Session : Sess :=
  { id := "s", state := .RANGING, maxAmps := ["0"], maxVolts := ["0"],
    avgWatts := ["0"], desirableCurrentRange := ["0"], ptdRunning := [true] }

/-- A single-analyzer configuration (WT310, AUTO ranging). -/
def c1Cfg : SessCfg :=
  { deviceTypes := [49], channels := [none], rangingMode := "AUTO" }

/-- A one-row single-channel log with a positive primary watts reading. -/
def c8Log : List LogRow :=
  [{ time := "t", watts := 3, volts := 2, amps := 1, pf := 1, mark := "m",
     channels := [] }]

/-- A one-analyzer session parameterized by its state, for instantiating the
state-machine theorems. -/
def c6Sess (st : SessionState) : Sess :=
  { id := "s6", state := st, maxAmps := ["0"], maxVolts := ["0"],
    avgWatts := ["0"], desirableCurrentRange := ["0"], ptdRunning := [true] }

theorem chanLoop_ok (ts : List ChTuple) : ∀ (expected : List Nat)
    (mV mA : Rat) (ws : List Rat) (mV2 mA2 : Rat) (ws2 : List Rat),
    chanLoop expected ts mV mA ws = .ok (mV2, mA2, ws2) →
    mV2 = ((includedTuples expected ts).map ChTuple.volts).foldl max mV ∧
    mA2 = ((includedTuples expected ts).map ChTuple.amps).foldl max mA ∧
    ws2 = ws ++ ((includedTuples expected ts).map ChTuple.watts).filter
        (fun w => decide (0 < w)) := by
  induction ts with
  | nil =>
      intro expected mV mA ws mV2 mA2 ws2 h
      cases expected with
      | nil =>
          simp only [chanLoop, if_pos trivial, reduceIte] at h
          obtain ⟨h1, h2, h3⟩ := by simpa using h
          subst h1; subst h2; subst h3
          simp [includedTuples]
      | cons e es => simp [chanLoop] at h
  | cons t ts ih =>
      intro expected mV mA ws mV2 mA2 ws2 h
      cases expected with
      | nil => simp [chanLoop] at h
      | cons e es =>
          simp only [chanLoop] at h
          by_cases hch : t.ch = e
          · rw [if_pos hch] at h
            by_cases hes : es = []
            · subst hes
              rw [if_pos rfl] at h
              obtain ⟨h1, h2, h3⟩ := by simpa using h
              subst h1; subst h2; subst h3
              simp only [includedTuples, if_pos hch, if_pos rfl]
              refine ⟨by simp, by simp, ?_⟩
              by_cases hw : (0 : Rat) < t.watts
              · simp [hw]
              · simp [hw]
            · rw [if_neg hes] at h
              obtain ⟨h1, h2, h3⟩ := ih es _ _ _ _ _ _ h
              simp only [includedTuples, if_pos hch, if_neg hes]
              refine ⟨by simpa using h1, by simpa using h2, ?_⟩
              rw [h3]
              by_cases hw : (0 : Rat) < t.watts
              · simp [hw, List.filter_cons, List.append_assoc]
              · simp [hw, List.filter_cons]
          · rw [if_neg hch] at h
            obtain ⟨h1, h2, h3⟩ := ih (e :: es) _ _ _ _ _ _ h
            simp only [includedTuples, if_neg hch]
            exact ⟨h1, h2, h3⟩

theorem processRow_ok (mark : String) (sc n : Nat) (mV mA : Rat)
    (ws : List Rat) (row : LogRow) (mV2 mA2 : Rat) (ws2 : List Rat)
    (h : processRow mark sc n (mV, mA, ws) row = .ok (mV2, mA2, ws2)) :
    (row.mark = mark →
      mV2 = (rowVoltsContrib sc n row).foldl max mV ∧
      mA2 = (rowAmpsContrib sc n row).foldl max mA ∧
      ws2 = ws ++ (rowWattsContrib sc n row).filter (fun w => decide (0 < w))) ∧
    (row.mark ≠ mark → mV2 = mV ∧ mA2 = mA ∧ ws2 = ws) := by
  constructor
  · intro hm
    simp only [processRow, if_pos hm] at h
    obtain ⟨h1, h2, h3⟩ := chanLoop_ok _ _ _ _ _ _ _ _ h
    refine ⟨?_, ?_, ?_⟩
    · simpa [rowVoltsContrib, expectedChannels] using h1
    · simpa [rowAmpsContrib, expectedChannels] using h2
    · rw [h3]
      by_cases hn : n = 0
      · subst hn
        by_cases hw : (0 : Rat) < row.watts
        · simp [rowWattsContrib, expectedChannels, hw, List.filter_cons,
            List.append_assoc]
        · simp [rowWattsContrib, expectedChannels, hw, List.filter_cons]
      · simp [rowWattsContrib, expectedChannels, hn]
  · intro hm
    simp only [processRow, if_neg hm] at h
    obtain ⟨h1, h2, h3⟩ := by simpa using h
    exact ⟨h1.symm, h2.symm, h3.symm⟩

theorem processLog_ok (mark : String) (sc n : Nat) (log : List LogRow) :
    ∀ (mV mA : Rat) (ws : List Rat) (mV2 mA2 : Rat) (ws2 : List Rat),
    processLog mark sc n log (mV, mA, ws) = .ok (mV2, mA2, ws2) →
    mV2 = ((matchingRows log mark).flatMap (rowVoltsContrib sc n)).foldl max mV ∧
    mA2 = ((matchingRows log mark).flatMap (rowAmpsContrib sc n)).foldl max mA ∧
    ws2 = ws ++ ((matchingRows log mark).flatMap (rowWattsContrib sc n)).filter
        (fun w => decide (0 < w)) := by
  induction log with
  | nil =>
      intro mV mA ws mV2 mA2 ws2 h
      obtain ⟨h1, h2, h3⟩ := by simpa [processLog] using h
      subst h1; subst h2; subst h3
      simp [matchingRows]
  | cons row rows ih =>
      intro mV mA ws mV2 mA2 ws2 h
      simp only [processLog, bind, Except.bind] at h
      cases hrow : processRow mark sc n (mV, mA, ws) row with
      | error e => rw [hrow] at h; exact absurd h (by simp)
      | ok st1 =>
          rw [hrow] at h
          obtain ⟨mV1, mA1, ws1⟩ := st1
          obtain ⟨h1, h2, h3⟩ := ih mV1 mA1 ws1 mV2 mA2 ws2 h
          by_cases hm : row.mark = mark
          · obtain ⟨hr1, hr2, hr3⟩ :=
              (processRow_ok mark sc n mV mA ws row mV1 mA1 ws1 hrow).1 hm
            have hfm : matchingRows (row :: rows) mark =
                row :: matchingRows rows mark := by
              simp [matchingRows, List.filter_cons, hm]
            refine ⟨?_, ?_, ?_⟩
            · rw [h1, hr1, hfm]
              simp [List.foldl_append]
            · rw [h2, hr2, hfm]
              simp [List.foldl_append]
            · rw [h3, hr3, hfm]
              simp [List.append_assoc]
          · obtain ⟨hr1, hr2, hr3⟩ :=
              (processRow_ok mark sc n mV mA ws row mV1 mA1 ws1 hrow).2 hm
            subst hr1; subst hr2; subst hr3
            have hfm : matchingRows (row :: rows) mark =
                matchingRows rows mark := by
              simp [matchingRows, List.filter_cons, hm]
            rw [hfm]
            exact ⟨h1, h2, h3⟩

theorem max_volts_amps_avg_watts_ok (log : List LogRow) (mark : String)
    (sc n : Nat) (mV mA aW : Rat)
    (h : max_volts_amps_avg_watts log mark sc n = .ok (mV, mA, aW)) :
    mV = listMax (contributingVolts log mark sc n) ∧
    mA = listMax (contributingAmps log mark sc n) ∧
    aW = (if ((contributingWatts log mark sc n).filter
              (fun w => decide (0 < w))) = [] then (-1 : Rat)
          else ((contributingWatts log mark sc n).filter
              (fun w => decide (0 < w))).sum /
            (((contributingWatts log mark sc n).filter
              (fun w => decide (0 < w))).length : Rat)) := by
  simp only [max_volts_amps_avg_watts, bind, Except.bind] at h
  cases hp : processLog mark sc n log (-1, -1, []) with
  | error e => rw [hp] at h; exact absurd h (by simp)
  | ok st =>
      rw [hp] at h
      obtain ⟨mV1, mA1, ws1⟩ := st
      obtain ⟨st1, st2, st3⟩ := processLog_ok mark sc n log _ _ _ _ _ _ hp
      simp only [pure, Except.pure, Except.ok.injEq, Prod.mk.injEq] at h
      obtain ⟨h1, h2, h3⟩ := h
      subst h1; subst h2
      refine ⟨by simpa [listMax, contributingVolts] using st1,
              by simpa [listMax, contributingAmps] using st2, ?_⟩
      rw [← h3, st3]
      simp only [List.nil_append]
      have hcw : contributingWatts log mark sc n =
          (matchingRows log mark).flatMap (rowWattsContrib sc n) := rfl
      rw [hcw]
      set ws := ((matchingRows log mark).flatMap (rowWattsContrib sc n)).filter
        (fun w => decide (0 < w)) with hws
      by_cases hw : ws = []
      · simp [hw]
      · have hlen : 1 ≤ ws.length := by
          cases hc : ws with
          | nil => exact absurd hc hw
          | cons a l => simp
        simp [hw, hlen]

/-- C3 counterexample: on a one-row log whose primary Volts/Amps (100, 90)
exceed the selected channel tuple's (6, 4), max_volts_amps_avg_watts returns
maxVolts = 100 and maxAmps = 90, while the claim ("values outside the
selected channels, including the row's primary Volts/Amps triple, do not
contribute") predicts 6 and 4. -/
theorem C3_counterexample :
    max_volts_amps_avg_watts c3Log ("m") 1 1 = .ok (100, 90, 5) ∧
    claimedMaxVolts c3Log ("m") 1 1 = 6 ∧
    claimedMaxAmps c3Log ("m") 1 1 = 4 ∧
    (100 : Rat) ≠ 6 ∧ (90 : Rat) ≠ 4 := by
  refine ⟨?_, ?_, ?_, by norm_num, by norm_num⟩
  · norm_num [max_volts_amps_avg_watts, processLog, processRow, chanLoop,
      c3Log, bind, Except.bind, pure, Except.pure]
  · norm_num [claimedMaxVolts, listMax, matchingRows, selectedTuples, c3Log]
  · norm_num [claimedMaxAmps, listMax, matchingRows, selectedTuples, c3Log]

/-- C3 (amended): for multi-channel selection (nChans > 0), whenever
max_volts_amps_avg_watts succeeds, maxVolts and maxAmps are the decimal-wise
maxima, over all rows whose Mark equals the given mark exactly, of -1, the
row's primary Volts/Amps values, and the Volts/Amps of the channel tuples
matched in order against the expected channels
[startChan, startChan + nChans) (a tuple not matching the next expected
channel is skipped and does not contribute, and tuples after the last
expected channel is matched are ignored). -/
theorem C3_amended (log : List LogRow) (mark : String) (sc n : Nat)
    (mV mA aW : Rat) (hn : 0 < n)
    (h : max_volts_amps_avg_watts log mark sc n = .ok (mV, mA, aW)) :
    mV = listMax (contributingVolts log mark sc n) ∧
    mA = listMax (contributingAmps log mark sc n) := by
  obtain ⟨h1, h2, _⟩ := max_volts_amps_avg_watts_ok log mark sc n mV mA aW h
  exact ⟨h1, h2⟩

/-- Witness for C3_amended at the concrete log c3Log. -/
theorem C3_amended_witness :
    (100 : Rat) = listMax (contributingVolts c3Log ("m") 1 1) ∧
    (90 : Rat) = listMax (contributingAmps c3Log ("m") 1 1) :=
  C3_amended c3Log ("m") 1 1 100 90 5 (by norm_num)
    (by norm_num [max_volts_amps_avg_watts, processLog, processRow, chanLoop,
      c3Log, bind, Except.bind, pure, Except.pure])

/-- C8: whenever max_volts_amps_avg_watts succeeds, the returned meanWatts is
the arithmetic mean of the strictly positive included Watts values across all
matching rows (the primary watts for single-channel selection, the included
channel tuples' watts otherwise), and is the sentinel -1 when no included
Watts value is positive.  The final "%.6f" rendering is elided (the numeric
mean is exact). -/
theorem C8_meanWatts (log : List LogRow) (mark : String) (sc n : Nat)
    (mV mA aW : Rat)
    (h : max_volts_amps_avg_watts log mark sc n = .ok (mV, mA, aW)) :
    ((contributingWatts log mark sc n).filter (fun w => decide (0 < w)) = [] →
      aW = -1) ∧
    ((contributingWatts log mark sc n).filter (fun w => decide (0 < w)) ≠ [] →
      aW = ((contributingWatts log mark sc n).filter
          (fun w => decide (0 < w))).sum /
        (((contributingWatts log mark sc n).filter
          (fun w => decide (0 < w))).length : Rat)) := by
  obtain ⟨-, -, h3⟩ := max_volts_amps_avg_watts_ok log mark sc n mV mA aW h
  constructor
  · intro hnil
    rw [h3, if_pos hnil]
  · intro hne
    rw [h3, if_neg hne]

/-- Witness for C8_meanWatts on the concrete log c8Log, whose single positive
watts value 3 gives mean 3. -/
theorem C8_meanWatts_witness :
    ((contributingWatts c8Log ("m") 0 0).filter (fun w => decide (0 < w)) = [] →
      (3 : Rat) = -1) ∧
    ((contributingWatts c8Log ("m") 0 0).filter (fun w => decide (0 < w)) ≠ [] →
      (3 : Rat) = ((contributingWatts c8Log ("m") 0 0).filter
          (fun w => decide (0 < w))).sum /
        (((contributingWatts c8Log ("m") 0 0).filter
          (fun w => decide (0 < w))).length : Rat)) :=
  C8_meanWatts c8Log ("m") 0 0 2 1 3
    (by norm_num [max_volts_amps_avg_watts, processLog, processRow, chanLoop,
      c8Log, bind, Except.bind, pure, Except.pure])

theorem combinedWatts_eq_sum (rows : List PRow) :
    combinedWatts rows =
      ((((rows.map PRow.watts).filter (fun w => decide (w ≠ -1))).map
        (fun w => |w|)).sum) := by
  have key : ∀ (l : List PRow) (acc : Rat),
      l.foldl (fun acc r => if r.watts ≠ -1 then acc + |r.watts| else acc) acc =
      acc + ((((l.map PRow.watts).filter (fun w => decide (w ≠ -1))).map
        (fun w => |w|)).sum) := by
    intro l
    induction l with
    | nil => intro acc; simp
    | cons r l ih =>
        intro acc
        by_cases hr : r.watts ≠ -1
        · rw [List.foldl_cons, if_pos hr, ih]
          simp only [List.map_cons, List.filter_cons]
          rw [if_pos (by simpa using hr)]
          simp only [List.map_cons, List.sum_cons]
          ring
        · rw [List.foldl_cons, if_neg hr, ih]
          simp only [List.map_cons, List.filter_cons]
          rw [if_neg (by simpa using hr)]
  simpa [combinedWatts] using key rows 0

/-- C4 counterexample: merging one-row logs with watts 10 and -5 produces a
merged watts of 15 (the code sums absolute values), while the claim ("Watts
field equal to the sum over all analyzers of the row-i Watts values that are
not -1") predicts 10 + (-5) = 5. -/
theorem C4_counterexample :
    (merge_power_logs [[c4RowA], [c4RowB]]).map MergedRow.watts = [15] ∧
    claimedCombinedWatts [c4RowA, c4RowB] = 5 ∧ (15 : Rat) ≠ 5 := by
  refine ⟨?_, ?_, by norm_num⟩
  · rw [show merge_power_logs [[c4RowA], [c4RowB]] =
        [mkMergedRow [c4RowA, c4RowB]] from rfl]
    simp only [List.map_cons, List.map_nil, mkMergedRow]
    norm_num [combinedWatts, c4RowA, c4RowB]
  · norm_num [claimedCombinedWatts, c4RowA, c4RowB]

/-- C4 (amended): for N >= 2 per-analyzer sample logs, the merged output row
at every index i below the minimum log length preserves the Time and Mark of
analyzer 1's row i, has a Watts field equal to the sum of the absolute
values of the row-i Watts readings that are not -1, sets Volts, Amps and PF
to -1, and appends each analyzer's original row. -/
theorem mkMergedRow_eq (rows : List PRow) (a1 : PRow) (tail : List PRow)
    (hrows : rows = a1 :: tail) :
    mkMergedRow rows =
      { time := a1.time
        watts := ((((rows.map PRow.watts).filter (fun w => decide (w ≠ -1))).map
            (fun w => |w|)).sum)
        volts := -1
        amps := -1
        pf := -1
        mark := a1.mark
        originals := rows } := by
  simp only [mkMergedRow, combinedWatts_eq_sum, hrows, List.headD_cons]

theorem C4_amended (first : List PRow) (rest : List (List PRow)) (i : Nat)
    (hN : rest ≠ [])
    (hi : i < (rest.map List.length).foldl min first.length)
    (a1 : PRow) (ha1 : first[i]? = some a1) :
    (merge_power_logs (first :: rest))[i]? = some
      { time := a1.time
        watts := ((((((first :: rest).filterMap (fun l => l.get? i)).map
            PRow.watts).filter (fun w => decide (w ≠ -1))).map
            (fun w => |w|)).sum)
        volts := -1
        amps := -1
        pf := -1
        mark := a1.mark
        originals := (first :: rest).filterMap (fun l => l.get? i) } := by
  simp only [merge_power_logs]
  rw [List.getElem?_map, List.getElem?_range hi]
  have hrows : (first :: rest).filterMap (fun l => l.get? i) =
      a1 :: rest.filterMap (fun l => l.get? i) := by
    rw [List.filterMap_cons]
    simp only [List.get?_eq_getElem?, ha1]
  show some (mkMergedRow ((first :: rest).filterMap (fun l => l.get? i))) = _
  rw [mkMergedRow_eq _ a1 _ hrows]

/-- Witness for C4_amended at the claim's own example (three-row logs with
watts 10/20/30 and 1/2/3), at each of the three row indices: the merged
watts are 11, 22 and 33 and analyzer 1's time and mark are preserved. -/
theorem C4_amended_witness :
    (merge_power_logs c4ExLogs)[0]? = some
      { time := "ta", watts := 11, volts := -1, amps := -1, pf := -1,
        mark := "m",
        originals := [⟨"ta", 10, 4, 5, 6, "m"⟩, ⟨"tx", 1, 7, 8, 9, "q"⟩] } ∧
    (merge_power_logs c4ExLogs)[1]? = some
      { time := "tb", watts := 22, volts := -1, amps := -1, pf := -1,
        mark := "m",
        originals := [⟨"tb", 20, 4, 5, 6, "m"⟩, ⟨"ty", 2, 7, 8, 9, "q"⟩] } ∧
    (merge_power_logs c4ExLogs)[2]? = some
      { time := "tc", watts := 33, volts := -1, amps := -1, pf := -1,
        mark := "m",
        originals := [⟨"tc", 30, 4, 5, 6, "m"⟩, ⟨"tz", 3, 7, 8, 9, "q"⟩] } := by
  refine ⟨?_, ?_, ?_⟩
  · have h := C4_amended c4ExA [c4ExB] 0 (by simp) (by norm_num [c4ExA, c4ExB])
      ⟨"ta", 10, 4, 5, 6, "m"⟩ (by rw [show c4ExA[0]? =
        some (⟨"ta", 10, 4, 5, 6, "m"⟩ : PRow) from rfl])
    refine Eq.trans (by exact h) ?_
    rw [show List.filterMap (fun l => l.get? 0) (c4ExA :: [c4ExB]) =
      [(⟨"ta", 10, 4, 5, 6, "m"⟩ : PRow), ⟨"tx", 1, 7, 8, 9, "q"⟩] from rfl]
    norm_num
  · have h := C4_amended c4ExA [c4ExB] 1 (by simp) (by norm_num [c4ExA, c4ExB])
      ⟨"tb", 20, 4, 5, 6, "m"⟩ (by rw [show c4ExA[1]? =
        some (⟨"tb", 20, 4, 5, 6, "m"⟩ : PRow) from rfl])
    refine Eq.trans (by exact h) ?_
    rw [show List.filterMap (fun l => l.get? 1) (c4ExA :: [c4ExB]) =
      [(⟨"tb", 20, 4, 5, 6, "m"⟩ : PRow), ⟨"ty", 2, 7, 8, 9, "q"⟩] from rfl]
    norm_num
  · have h := C4_amended c4ExA [c4ExB] 2 (by simp) (by norm_num [c4ExA, c4ExB])
      ⟨"tc", 30, 4, 5, 6, "m"⟩ (by rw [show c4ExA[2]? =
        some (⟨"tc", 30, 4, 5, 6, "m"⟩ : PRow) from rfl])
    refine Eq.trans (by exact h) ?_
    rw [show List.filterMap (fun l => l.get? 2) (c4ExA :: [c4ExB]) =
      [(⟨"tc", 30, 4, 5, 6, "m"⟩ : PRow), ⟨"tz", 3, 7, 8, 9, "q"⟩] from rfl]
    norm_num

theorem stopRangingOne_no_tooFast (cfg : SessCfg) (logs : List (List LogRow))
    (durLt1 : Bool) (i : Nat) (s : Sess) :
    stopRangingOne cfg logs durLt1 i s ≠ .error .measurementTooFast := by
  unfold stopRangingOne
  simp only [isMaxVoltsAmpsNegativeValues, Bool.false_eq_true, if_false]
  split
  · simp
  · simp

theorem stopRangingLoop_no_tooFast (cfg : SessCfg) (logs : List (List LogRow))
    (durLt1 : Bool) : ∀ (idx : List Nat) (s : Sess),
    (stopRangingLoop cfg logs durLt1 idx s).2 ≠ .exc .measurementTooFast := by
  intro idx
  induction idx with
  | nil => intro s; simp [stopRangingLoop]
  | cons i rest ih =>
      intro s
      simp only [stopRangingLoop]
      cases hone : stopRangingOne cfg logs durLt1 i s with
      | ok s2 => exact ih s2
      | error e =>
          have hne := stopRangingOne_no_tooFast cfg logs durLt1 i s
          rw [hone] at hne
          intro hc
          have he : e = .measurementTooFast := StopResult.exc.inj hc
          exact hne (by rw [he])

/-- C1 (code bug): on a ranging log with no samples at all (hence no positive
ones), with the wall time between Go and Stop under one second, session
stop,ranging succeeds: the director receives "OK", the parsed maxAmps is the
-1 sentinel, and no MeasurementEndedTooFastError is possible at all --
max_volts_amps_avg_watts never raises MaxVoltsAmpsNegativeValuesError (the
maxVolts/maxAmps <= 0 check is absent), so the promotion handler of
Session.stop is dead code, contrary to the claim. -/
theorem C1_stop_ok_despite_no_samples :
    (handleSessionCmd c1Cfg (fun _ _ => false) [[]] true (some c1Session) ("*")
        ["stop", "ranging"]).2 = "OK" ∧
    (sessionStop c1Cfg [[]] true c1Session .RANGING).1.maxAmps = ["-1"] ∧
    (sessionStop c1Cfg [[]] true c1Session .RANGING).2 = .ok true ∧
    ∀ (cfg : SessCfg) (logs : List (List LogRow)) (durLt1 : Bool) (s : Sess)
      (mode : Mode),
      (sessionStop cfg logs durLt1 s mode).2 ≠ .exc .measurementTooFast := by
  refine ⟨rfl, rfl, rfl, ?_⟩
  intro cfg logs durLt1 s mode
  unfold sessionStop
  split
  · simp
  · split
    · simp
    · split
      · exact stopRangingLoop_no_tooFast cfg logs durLt1 _ _
      · split
        · simp
        · simp

/-- C2 (code bug): with rangingMode = MAX and a device of type 8, the
INITIAL to RANGING transition does send SR,V,Auto and SR,A,20, but then the
unconditional loop at server.py lines 1032-1033 sends SR,A,Auto, so the last
SR,A command before the ranging Go is SR,A,Auto, not the
MAX_RANGE_FOR_DEVICE value the claim says is in effect. -/
theorem C2_max_range_not_in_effect :
    rangingStartTrace c2Cfg ("s") =
      [(0, "SR,V,Auto"), (0, "SR,A,20"), (0, "SR,A,Auto"),
       (0, "Go,1000,0,s_ranging")] ∧
    lastAmpsRangeBeforeGo (rangingStartTrace c2Cfg ("s")) 0 =
      some ("SR,A,Auto") ∧
    ("SR,A,Auto" : String) ≠ "SR,A," ++ toString (20 : Nat) ∧
    (sessionStart c2Cfg (fun _ _ => false) (c6Sess .INITIAL) .RANGING).2.2 =
      rangingStartTrace c2Cfg ("s6") := by
  refine ⟨by decide, by decide, by decide, by decide⟩

/-- C6: start,X in state X and stop,X in state X_DONE return OK, the former
with no side effects (session unchanged, no PTD commands sent); repeating a
phase command in any other already-passed state is an error (False, hence an
"Error" reply). -/
theorem C6_idempotence (cfg : SessCfg) (re : Nat → String → Bool)
    (logs : List (List LogRow)) (durLt1 : Bool) (s : Sess) :
    (s.state = .RANGING → sessionStart cfg re s .RANGING = (s, .ok, [])) ∧
    (s.state = .TESTING → sessionStart cfg re s .TESTING = (s, .ok, [])) ∧
    (s.state = .RANGING_DONE →
      sessionStop cfg logs durLt1 s .RANGING = (s, .ok true)) ∧
    (s.state = .TESTING_DONE →
      sessionStop cfg logs durLt1 s .TESTING = (s, .ok true)) ∧
    ((s.state = .RANGING_DONE ∨ s.state = .TESTING ∨ s.state = .TESTING_DONE ∨
        s.state = .DONE) → (sessionStart cfg re s .RANGING).2.1 = .err) ∧
    ((s.state = .TESTING_DONE ∨ s.state = .DONE) →
      (sessionStart cfg re s .TESTING).2.1 = .err) ∧
    ((s.state = .TESTING ∨ s.state = .TESTING_DONE ∨ s.state = .DONE ∨
        s.state = .INITIAL) →
      (sessionStop cfg logs durLt1 s .RANGING).2 = .ok false) ∧
    ((s.state = .RANGING ∨ s.state = .RANGING_DONE ∨ s.state = .DONE ∨
        s.state = .INITIAL) →
      (sessionStop cfg logs durLt1 s .TESTING).2 = .ok false) := by
  refine ⟨?_, ?_, ?_, ?_, ?_, ?_, ?_, ?_⟩
  · intro h; simp [sessionStart, h]
  · intro h; simp [sessionStart, h]
  · intro h; simp [sessionStop, h]
  · intro h; simp [sessionStop, h]
  · rintro (h | h | h | h) <;> simp [sessionStart, h]
  · rintro (h | h) <;> simp [sessionStart, h]
  · rintro (h | h | h | h) <;> simp [sessionStop, h]
  · rintro (h | h | h | h) <;> simp [sessionStop, h]

/-- Witness for C6_idempotence at concrete sessions in each state. -/
theorem C6_idempotence_witness :
    sessionStart c1Cfg (fun _ _ => false) (c6Sess .RANGING) .RANGING =
      (c6Sess .RANGING, .ok, []) ∧
    sessionStart c1Cfg (fun _ _ => false) (c6Sess .TESTING) .TESTING =
      (c6Sess .TESTING, .ok, []) ∧
    sessionStop c1Cfg [[]] true (c6Sess .RANGING_DONE) .RANGING =
      (c6Sess .RANGING_DONE, .ok true) ∧
    sessionStop c1Cfg [[]] true (c6Sess .TESTING_DONE) .TESTING =
      (c6Sess .TESTING_DONE, .ok true) ∧
    (sessionStart c1Cfg (fun _ _ => false) (c6Sess .RANGING_DONE) .RANGING).2.1 =
      .err ∧
    (sessionStart c1Cfg (fun _ _ => false) (c6Sess .TESTING_DONE) .TESTING).2.1 =
      .err ∧
    (sessionStop c1Cfg [[]] true (c6Sess .TESTING) .RANGING).2 = .ok false ∧
    (sessionStop c1Cfg [[]] true (c6Sess .RANGING) .TESTING).2 = .ok false := by
  refine ⟨(C6_idempotence c1Cfg (fun _ _ => false) [[]] true (c6Sess .RANGING)).1 rfl,
    (C6_idempotence c1Cfg (fun _ _ => false) [[]] true (c6Sess .TESTING)).2.1 rfl,
    (C6_idempotence c1Cfg (fun _ _ => false) [[]] true (c6Sess .RANGING_DONE)).2.2.1 rfl,
    (C6_idempotence c1Cfg (fun _ _ => false) [[]] true (c6Sess .TESTING_DONE)).2.2.2.1 rfl,
    (C6_idempotence c1Cfg (fun _ _ => false) [[]] true (c6Sess .RANGING_DONE)).2.2.2.2.1
      (Or.inl rfl),
    (C6_idempotence c1Cfg (fun _ _ => false) [[]] true (c6Sess .TESTING_DONE)).2.2.2.2.2.1
      (Or.inl rfl),
    (C6_idempotence c1Cfg (fun _ _ => false) [[]] true (c6Sess .TESTING)).2.2.2.2.2.2.1
      (Or.inl rfl),
    (C6_idempotence c1Cfg (fun _ _ => false) [[]] true (c6Sess .RANGING)).2.2.2.2.2.2.2
      (Or.inl rfl)⟩

/-- C7 counterexample: a descriptor with device type 35 (WT500, listed by
the claim as supported and single-channel) is rejected by check_ptd_config,
whose SUPPORTED_MODEL table holds only 8, 49, 52 and 77, while the claim
predicts it passes. -/
theorem C7_counterexample :
    check_ptd_config ⟨35, [], none⟩ = false ∧
    claimed_check_ptd_config ⟨35, [], none⟩ = true := by
  exact ⟨rfl, rfl⟩

/-- C7 (amended): check_ptd_config passes iff the device type is one of 8,
49, 52, 77, and additionally, for device type 77, the word after "-c" in the
stored command has exactly two comma-separated parts and the channel entry is
a non-empty list of exactly two entries.  No channel condition is checked for
any other device type. -/
theorem C7_amended (d : PtdConfigDesc) :
    check_ptd_config d = true ↔
      (d.device_type = 8 ∨ d.device_type = 49 ∨ d.device_type = 52 ∨
        d.device_type = 77) ∧
      (d.device_type = 77 →
        ∃ cs, findDashC d.command = some cs ∧ (cs.splitOn (",")).length = 2 ∧
          ∃ ch, d.channel = some ch ∧ ch ≠ [] ∧ ch.length = 2) := by
  unfold check_ptd_config
  have hmem : (d.device_type ∈ SUPPORTED_MODEL_keys) ↔
      (d.device_type = 8 ∨ d.device_type = 49 ∨ d.device_type = 52 ∨
        d.device_type = 77) := by
    simp [SUPPORTED_MODEL_keys]
  by_cases hsup : d.device_type ∈ SUPPORTED_MODEL_keys
  · rw [if_pos hsup]
    by_cases h77 : d.device_type = 77
    · rw [if_pos h77]
      cases hfc : findDashC d.command with
      | none =>
          simp only [Bool.false_eq_true, false_iff]
          rintro ⟨-, himp⟩
          obtain ⟨cs, hcs, -⟩ := himp h77
          exact Option.noConfusion hcs
      | some cs =>
          cases hch : d.channel with
          | none =>
              simp only [Bool.and_eq_true, decide_eq_true_eq, false_iff,
                Bool.false_eq_true, and_false]
              rintro ⟨-, himp⟩
              obtain ⟨cs2, -, -, ch, hc, -⟩ := himp h77
              exact Option.noConfusion hc
          | some ch =>
              simp only [Bool.and_eq_true, decide_eq_true_eq,
                Bool.not_eq_true', List.isEmpty_eq_false]
              constructor
              · rintro ⟨hsplit, hne, hlen⟩
                exact ⟨hmem.mp hsup,
                  fun _ => ⟨cs, rfl, hsplit, ch, rfl, by simpa using hne, hlen⟩⟩
              · rintro ⟨-, himp⟩
                obtain ⟨cs2, hcs2, hsplit, ch2, hch2, hne2, hlen2⟩ := himp h77
                obtain rfl : cs2 = cs := (Option.some.inj hcs2).symm
                obtain rfl : ch2 = ch := (Option.some.inj hch2).symm
                exact ⟨hsplit, by simpa using hne2, hlen2⟩
    · rw [if_neg h77]
      simp only [true_iff]
      exact ⟨hmem.mp hsup, fun hc => absurd hc h77⟩
  · rw [if_neg hsup]
    simp only [Bool.false_eq_true, false_iff]
    rintro ⟨hdisj, -⟩
    exact hsup (hmem.mpr hdisj)

/-- C9: a new,<label>,<uuid> command arriving with an active session drops
that session (state DONE, all PTD supervisors terminated) before the label
is validated, so an invalid label still destroys the previous session and
the reply is "Error: invalid label". -/
theorem C9_new_drops_before_validation (cfg : SessCfg) (s : Sess)
    (label timestamp serverUuid : String)
    (hlab : check_label label = false) :
    handleNew cfg (some s) label timestamp serverUuid =
      (some (Sess.drop s), "Error: invalid label") ∧
    (Sess.drop s).state = .DONE ∧
    ∀ b ∈ (Sess.drop s).ptdRunning, b = false := by
  refine ⟨?_, rfl, ?_⟩
  · simp [handleNew, hlab]
  · intro b hb
    simp only [Sess.drop, List.mem_map] at hb
    obtain ⟨-, -, hb2⟩ := hb
    exact hb2.symm

/-- Witness for C9_new_drops_before_validation with the invalid label
"bad label!". -/
theorem C9_new_drops_witness :
    handleNew c1Cfg (some (c6Sess .RANGING)) ("bad label!") ("ts") ("u") =
      (some (Sess.drop (c6Sess .RANGING)), "Error: invalid label") ∧
    (Sess.drop (c6Sess .RANGING)).state = .DONE ∧
    ∀ b ∈ (Sess.drop (c6Sess .RANGING)).ptdRunning, b = false :=
  C9_new_drops_before_validation c1Cfg (c6Sess .RANGING) ("bad label!") ("ts")
    ("u") (by decide)

theorem startTestingLoop_msg (re : Nat → String → Bool)
    (maxV desR : List String) : ∀ (idx : List Nat) (tr : List (Nat × String))
    (msg : String) (tr2 : List (Nat × String)),
    startTestingLoop re maxV desR idx tr = (some msg, tr2) →
    msg = "Error setting voltage range" ∨
      msg = "Error setting current range" := by
  intro idx
  induction idx with
  | nil =>
      intro tr msg tr2 h
      simp [startTestingLoop] at h
  | cons i rest ih =>
      intro tr msg tr2 h
      simp only [startTestingLoop] at h
      by_cases h1 : re i ("SR,V," ++ maxV.getD i (""))
      · rw [if_pos h1] at h
        obtain ⟨hm, -⟩ := Prod.mk.injEq .. ▸ h
        exact Or.inl (Option.some.inj hm).symm
      · rw [if_neg h1] at h
        by_cases h2 : re i ("SR,A," ++ desR.getD i (""))
        · rw [if_pos h2] at h
          obtain ⟨hm, -⟩ := Prod.mk.injEq .. ▸ h
          exact Or.inr (Option.some.inj hm).symm
        · rw [if_neg h2] at h
          exact ih _ _ _ h

theorem startReply_ne_unknown (r : StartResult) :
    startReply r ≠ "Error: unknown session" := by
  cases r <;> simp [startReply]

theorem sessionStart_reply4_ne_unknown (cfg : SessCfg)
    (re : Nat → String → Bool) (s : Sess) (mode : Mode) :
    startReply4 (sessionStart cfg re s mode).2.1 ≠ "Error: unknown session" := by
  unfold sessionStart
  split
  · simp [startReply4]
  · split
    · simp [startReply4]
    · split
      · simp [startReply4]
      · split
        · split
          · next msg tr heq =>
              rcases startTestingLoop_msg re s.maxVolts s.desirableCurrentRange
                  _ _ _ _ heq with hm | hm <;>
                simp [startReply4, hm]
          · simp [startReply4]
        · simp [startReply4]

theorem stopReply_ne_unknown (r : StopResult) :
    stopReply r ≠ "Error: unknown session" := by
  cases r with
  | ok b => cases b <;> simp [stopReply, unbool]
  | exc e => cases e <;> simp [stopReply, tooFastReply]

theorem sessionDispatch_ne_unknown (cfg : SessCfg) (re : Nat → String → Bool)
    (logs : List (List LogRow)) (durLt1 : Bool) (s : Sess)
    (rest : List String) :
    (sessionDispatch cfg re logs durLt1 s rest).2 ≠
      "Error: unknown session" := by
  unfold sessionDispatch
  split
  · exact startReply_ne_unknown _
  · exact startReply_ne_unknown _
  · exact sessionStart_reply4_ne_unknown cfg re _ .TESTING
  · exact stopReply_ne_unknown _
  · exact stopReply_ne_unknown _
  · simp
  · simp

/-- C10: a session,<sid>,<rest> command is answered with
"Error: unknown session" exactly when no session is active, or sid differs
from the active session's id and is not the wildcard "*"; in particular "*"
always addresses the active session. -/
theorem C10_unknown_session_iff (cfg : SessCfg) (re : Nat → String → Bool)
    (logs : List (List LogRow)) (durLt1 : Bool) (session : Option Sess)
    (sid : String) (rest : List String) :
    (handleSessionCmd cfg re logs durLt1 session sid rest).2 =
        "Error: unknown session" ↔
      session = none ∨
        ∃ s, session = some s ∧ s.id ≠ sid ∧ sid ≠ "*" := by
  cases session with
  | none => simp [handleSessionCmd]
  | some s =>
      simp only [handleSessionCmd]
      by_cases hg : s.id ≠ sid ∧ sid ≠ "*"
      · rw [if_pos hg]
        constructor
        · intro _
          exact Or.inr ⟨s, rfl, hg⟩
        · intro _
          rfl
      · rw [if_neg hg]
        constructor
        · intro h
          exact absurd h (sessionDispatch_ne_unknown cfg re logs durLt1 s rest)
        · rintro (h | ⟨s2, hs2, h1, h2⟩)
          · exact Option.noConfusion h
          · obtain rfl : s2 = s := (Option.some.inj hs2).symm
            exact absurd ⟨h1, h2⟩ hg

theorem digitsOf_bounds (n : Nat) : ∀ x ∈ digitsOf n, 48 ≤ x ∧ x ≤ 57 := by
  intro x hx
  unfold digitsOf at hx
  by_cases h : n = 0
  · rw [if_pos h] at hx
    simp only [List.mem_singleton] at hx
    omega
  · rw [if_neg h] at hx
    simp only [List.mem_map, List.mem_reverse] at hx
    obtain ⟨d, hd, rfl⟩ := hx
    have hlt : d < 10 := Nat.digits_lt_base (by norm_num) hd
    omega

theorem digitsOf_ne_nil (n : Nat) : digitsOf n ≠ [] := by
  unfold digitsOf
  by_cases h : n = 0
  · simp [h]
  · rw [if_neg h]
    simp only [ne_eq, List.map_eq_nil_iff, List.reverse_eq_nil_iff]
    exact fun hc => h (Nat.digits_eq_nil_iff_eq_zero.mp hc)

theorem crlf_not_mem_digitsOf (n : Nat) : (13 : Nat) ∉ digitsOf n := by
  intro hmem
  have := digitsOf_bounds n 13 hmem
  omega

theorem parseDecimal_digitsOf (n : Nat) : parseDecimal (digitsOf n) = some n := by
  unfold parseDecimal
  rw [if_neg (digitsOf_ne_nil n)]
  have hall : ((digitsOf n).all fun c => decide (48 ≤ c ∧ c ≤ 57)) = true := by
    rw [List.all_eq_true]
    intro x hx
    exact decide_eq_true (digitsOf_bounds n x hx)
  rw [if_pos hall]
  by_cases h : n = 0
  · subst h
    rfl
  · have hd : (((digitsOf n).map (· - 48)).reverse) = Nat.digits 10 n := by
      unfold digitsOf
      rw [if_neg h, List.map_map]
      have hid : ((· - 48) ∘ (· + 48) : Nat → Nat) = id := by
        funext d
        simp
      rw [hid, List.map_id, List.reverse_reverse]
    rw [hd, Nat.ofDigits_digits]

theorem splitAtCRLF_append (l r : List Nat) (h : (13 : Nat) ∉ l) :
    splitAtCRLF (l ++ 13 :: 10 :: r) = some (l, r) := by
  induction l with
  | nil => simp [splitAtCRLF]
  | cons x l ih =>
      have hx : x ≠ 13 := by
        intro hc
        exact h (by simp [hc])
      have hl : (13 : Nat) ∉ l := fun hm => h (by simp [hm])
      have hcons : (x :: l) ++ 13 :: 10 :: r = x :: (l ++ 13 :: 10 :: r) := rfl
      rw [hcons]
      cases hl2 : l ++ 13 :: 10 :: r with
      | nil => exact absurd hl2 (by simp)
      | cons b bs =>
          show splitAtCRLF (x :: b :: bs) = some (x :: l, r)
          unfold splitAtCRLF
          rw [if_neg (fun hc => hx hc.1), ← hl2, ih hl]

theorem chunksOf_flatten (k : Nat) (hk : k ≠ 0) (l : List Nat) :
    (chunksOf k l).flatten = l := by
  by_cases hl : l = []
  · subst hl
    rw [chunksOf, dif_pos (Or.inr rfl)]
    rfl
  · have hlt : (l.drop k).length < l.length := by
      rw [List.length_drop]
      have h1 : 0 < l.length := List.length_pos.mpr hl
      have h2 : 0 < k := Nat.pos_of_ne_zero hk
      omega
    rw [chunksOf, dif_neg (by push_neg; exact ⟨hk, hl⟩), List.flatten_cons,
      chunksOf_flatten k hk (l.drop k), List.take_append_drop]
termination_by l.length
decreasing_by
  exact hlt

theorem chunksOf_ne_nil (k : Nat) (hk : k ≠ 0) (l : List Nat) :
    ∀ c ∈ chunksOf k l, c ≠ [] := by
  intro c hc
  by_cases hl : l = []
  · subst hl
    rw [chunksOf, dif_pos (Or.inr rfl)] at hc
    exact absurd hc (by simp)
  · have hlt : (l.drop k).length < l.length := by
      rw [List.length_drop]
      have h1 : 0 < l.length := List.length_pos.mpr hl
      have h2 : 0 < k := Nat.pos_of_ne_zero hk
      omega
    rw [chunksOf, dif_neg (by push_neg; exact ⟨hk, hl⟩)] at hc
    rcases List.mem_cons.mp hc with h | h
    · subst h
      intro hTake
      rcases List.take_eq_nil_iff.mp hTake with h0 | h0
      · exact hk h0
      · exact hl h0
    · exact chunksOf_ne_nil k hk (l.drop k) c h
termination_by l.length
decreasing_by
  exact hlt

theorem recvFileLoop_frame (c rest acc : List Nat) (hc : c ≠ []) :
    recvFileLoop (digitsOf c.length ++ 13 :: 10 :: (c ++ rest)) acc =
    recvFileLoop rest (acc ++ c) := by
  obtain ⟨m, hm⟩ : ∃ m, c.length = m + 1 := by
    cases hcc : c with
    | nil => exact absurd hcc hc
    | cons a l => exact ⟨l.length, by simp⟩
  rw [recvFileLoop, splitAtCRLF_append _ _ (crlf_not_mem_digitsOf c.length)]
  simp only [parseDecimal_digitsOf, hm]
  rw [if_pos (by
    rw [List.length_append, ← hm]
    omega)]
  rw [show m + 1 = c.length from hm.symm, List.take_left, List.drop_left]

theorem recvFileLoop_term (acc : List Nat) :
    recvFileLoop (digitsOf 0 ++ 13 :: 10 :: ([] : List Nat)) acc = some acc := by
  rw [recvFileLoop, splitAtCRLF_append _ _ (crlf_not_mem_digitsOf 0)]
  simp only [parseDecimal_digitsOf]

theorem recvFileLoop_chunks : ∀ (cs : List (List Nat)),
    (∀ c ∈ cs, c ≠ []) → ∀ (acc : List Nat),
    recvFileLoop
        ((cs.map (fun c => digitsOf c.length ++ 13 :: 10 :: c)).flatten ++
          (digitsOf 0 ++ 13 :: 10 :: ([] : List Nat))) acc =
      some (acc ++ cs.flatten)
  | [], _, acc => by
      simpa using recvFileLoop_term acc
  | c :: cs, hcs, acc => by
      have hc : c ≠ [] := hcs c (List.mem_cons_self ..)
      have hstream :
          (((c :: cs).map (fun c => digitsOf c.length ++ 13 :: 10 :: c)).flatten ++
            (digitsOf 0 ++ 13 :: 10 :: ([] : List Nat))) =
          digitsOf c.length ++ 13 :: 10 ::
            (c ++ ((cs.map (fun c => digitsOf c.length ++ 13 :: 10 :: c)).flatten ++
              (digitsOf 0 ++ 13 :: 10 :: ([] : List Nat)))) := by
        simp [List.append_assoc]
      rw [hstream, recvFileLoop_frame _ _ _ hc,
        recvFileLoop_chunks cs (fun d hd => hcs d (List.mem_cons_of_mem _ hd))
          (acc ++ c)]
      simp

/-- C5: for every byte buffer B, including the empty one, the framed file
transfer round-trips: decoding (Proto.recv_file) the byte stream produced by
encoding (Proto.send_file) yields exactly B. -/
theorem C5_file_roundtrip (B : List Nat) : recv_file (send_file B) = some B := by
  unfold recv_file send_file
  have h := recvFileLoop_chunks (chunksOf 1048576 B)
    (chunksOf_ne_nil 1048576 (by norm_num) B) []
  rw [chunksOf_flatten 1048576 (by norm_num) B] at h
  have hs : ((chunksOf 1048576 B).map
        (fun c => digitsOf c.length ++ [13, 10] ++ c)).flatten ++
      digitsOf 0 ++ [13, 10] =
      ((chunksOf 1048576 B).map
        (fun c => digitsOf c.length ++ 13 :: 10 :: c)).flatten ++
      (digitsOf 0 ++ 13 :: 10 :: ([] : List Nat)) := by
    simp [List.append_assoc]
  rw [hs, h]
  simp

end PowerDev
